import Mathlib

/-!
Verification of the query-safety gate of the pg-python-mcp repository
(src/pg_mcp/pg_handler.py).

The SQL text itself is tokenized by the external `sqlparse` collaborator;
here a statement is its token tree, produced by that parser, and the
functions below are shallow embeddings of the handler's methods:
`is_query_safe`, `_check_statement_safety`, `_extract_sql_keyword`,
`_check_select_safety`, `_check_nested_dangerous_operations` and
`validate_database_context`, plus the pre-flight part of `execute_query`.
-/

namespace PgMcp

/-- A node of the sqlparse token tree. `dmlKeyword` is a leaf token with
`ttype = Keyword.DML`, `plainKeyword` one with `ttype = Keyword`,
`cteKeyword` one with `ttype = Keyword.CTE`; `composite` is a `TokenList`
(an object with a `.tokens` attribute); `whitespace` is a leaf with
`is_whitespace = True`; `leaf` is any other leaf token. Every token
carries its source text (`token.value` / `str(token)`). -/
inductive Token where
  | dmlKeyword (text : String)
  | plainKeyword (text : String)
  | cteKeyword (text : String)
  | composite (children : List Token)
  | leaf (text : String)
  | whitespace (text : String)
deriving Repr

/-- A parsed SQL statement: the `tokens` list of a `sqlparse.sql.Statement`. -/
abbrev Statement := List Token

/-- The fields of `PostgreSQLHandler` that the safety gate reads:
`allow_dangerous_operations` (True is the spec's Permissive mode),
the configured `database` name, and the locale flag `is_chinese`. -/
structure Handler where
  allow_dangerous_operations : Bool
  database : String
  is_chinese : Bool
deriving Repr, DecidableEq

/-- `_get_message`: pick the Chinese or the English message by locale. -/
def _get_message (h : Handler) (zh_msg en_msg : String) : String :=
  if h.is_chinese then zh_msg else en_msg

/-- Python `str.upper()` restricted to the ASCII range, as characterwise map. -/
def pyUpper (s : String) : String := String.mk (s.data.map Char.toUpper)

/-- Python `str.lower()` restricted to the ASCII range, as characterwise map. -/
def pyLower (s : String) : String := String.mk (s.data.map Char.toLower)

/-- Drop leading whitespace characters from a character list. -/
def dropWhileWs : List Char → List Char
  | [] => []
  | c :: cs => if c.isWhitespace then dropWhileWs cs else c :: cs

/-- Python `str.strip()`: remove whitespace at both ends. -/
def pyStrip (s : String) : String :=
  String.mk (((dropWhileWs s.data).reverse |> dropWhileWs).reverse)

/-- Does the second list start with the first? -/
def startsWithCL : List Char → List Char → Bool
  | [], _ => true
  | _ :: _, [] => false
  | p :: ps, c :: cs => p == c && startsWithCL ps cs

/-- Does the second list contain the first as a contiguous sublist? -/
def containsCL (pat : List Char) : List Char → Bool
  | [] => startsWithCL pat []
  | c :: cs => startsWithCL pat (c :: cs) || containsCL pat cs

/-- Python's substring operator: `pat in s`. -/
def strContains (s pat : String) : Bool := containsCL pat.data s.data

mutual
/-- Concatenation of the source text of a token: `str(token)`. -/
def renderTok : Token → String
  | .dmlKeyword t => t
  | .plainKeyword t => t
  | .cteKeyword t => t
  | .composite ch => renderList ch
  | .leaf t => t
  | .whitespace t => t
def renderList : List Token → String
  | [] => ""
  | t :: ts => renderTok t ++ renderList ts
end

/-- `token.is_whitespace`. -/
def isWsTok : Token → Bool
  | .whitespace _ => true
  | _ => false

/-- First non-whitespace token of a list (the loop at the top of
`_check_statement_safety` and inside `_extract_sql_keyword`). -/
def firstNonWs : List Token → Option Token
  | [] => none
  | t :: ts => if isWsTok t then firstNonWs ts else some t

mutual
/-- `_extract_sql_keyword`: a DML / plain / CTE keyword token yields its
uppercased text; a composite token recurses into its first non-whitespace
child; otherwise (including a composite with only whitespace children)
fall back to `str(token).upper().strip()`. -/
def _extract_sql_keyword : Token → String
  | .dmlKeyword t => pyUpper t
  | .plainKeyword t => pyUpper t
  | .cteKeyword t => pyUpper t
  | .composite ch =>
      match extractFromChildren ch with
      | some k => k
      | none => pyStrip (pyUpper (renderList ch))
  | .leaf t => pyStrip (pyUpper t)
  | .whitespace t => pyStrip (pyUpper t)
def extractFromChildren : List Token → Option String
  | [] => none
  | t :: ts => if isWsTok t then extractFromChildren ts else some (_extract_sql_keyword t)
end

/-- The `safe_commands` set of `_check_statement_safety`. -/
def safe_commands : List String :=
  ["SELECT", "SHOW", "DESCRIBE", "DESC", "EXPLAIN", "WITH"]

/-- The `dangerous_dml` set of `_check_nested_dangerous_operations`. -/
def dangerous_dml : List String :=
  ["INSERT", "UPDATE", "DELETE", "DROP", "ALTER", "CREATE", "TRUNCATE", "COPY"]

/-- The rejection message of the nested-operation scanner. -/
def nested_dml_msg (h : Handler) (keyword : String) : String :=
  _get_message h ("在SELECT语句中检测到危险的" ++ keyword ++ "操作")
    ("Detected dangerous " ++ keyword ++ " operation in SELECT statement")

mutual
/-- `check_token_recursively` (the inner function of
`_check_nested_dangerous_operations`): reject on a DML keyword token whose
uppercased text is in `dangerous_dml`, else recurse into the children of a
composite token, short-circuiting on the first violation. -/
def check_token_recursively (h : Handler) : Token → Bool × String
  | .dmlKeyword t =>
      if dangerous_dml.contains (pyUpper t) then (false, nested_dml_msg h (pyUpper t))
      else (true, "")
  | .composite ch => checkTokens h ch
  | .plainKeyword _ => (true, "")
  | .cteKeyword _ => (true, "")
  | .leaf _ => (true, "")
  | .whitespace _ => (true, "")
def checkTokens (h : Handler) : List Token → Bool × String
  | [] => (true, "")
  | t :: ts =>
      match check_token_recursively h t with
      | (false, m) => (false, m)
      | (true, _) => checkTokens h ts
end

/-- `_check_nested_dangerous_operations`: run the recursive token check over
all top-level tokens of the statement. -/
def _check_nested_dangerous_operations (h : Handler) (statement : Statement) : Bool × String :=
  checkTokens h statement

/-- The `dangerous_constructs` table of `_check_select_safety`:
substring to search for, paired with its description. -/
def dangerous_constructs : List (String × String) :=
  [("INTO OUTFILE", "SELECT INTO OUTFILE"),
   ("COPY ", "COPY命令"),
   ("PG_READ_FILE(", "文件读取函数pg_read_file"),
   ("PG_LS_DIR(", "目录列表函数pg_ls_dir"),
   ("@@", "系统变量访问")]

/-- First entry of the table whose substring occurs in `s`; its description. -/
def findConstruct (s : String) : List (String × String) → Option String
  | [] => none
  | (c, d) :: rest => if strContains s c then some d else findConstruct s rest

/-- The rejection message for a dangerous SELECT construct. -/
def construct_msg (h : Handler) (description : String) : String :=
  _get_message h ("检测到危险的" ++ description ++ "操作,查询被拒绝")
    ("Detected dangerous " ++ description ++ " operation, query rejected")

/-- The rejection message for a UNION. -/
def union_msg (h : Handler) : String :=
  _get_message h "检测到UNION操作,可能存在安全风险,查询被拒绝"
    "Detected UNION operation, potential security risk, query rejected"

/-- `_check_select_safety`: over the uppercased rendering of the statement,
first the dangerous-construct table in order, then the UNION check, then
the nested-operation scan. -/
def _check_select_safety (h : Handler) (statement : Statement) : Bool × String :=
  let statement_str := pyUpper (renderList statement)
  match findConstruct statement_str dangerous_constructs with
  | some d => (false, construct_msg h d)
  | none =>
      if strContains statement_str "UNION" then (false, union_msg h)
      else _check_nested_dangerous_operations h statement

/-- The rejection message for a disallowed command verb. -/
def disallowed_command_msg (h : Handler) (sql_keyword : String) : String :=
  _get_message h
    ("不允许的SQL命令: " ++ sql_keyword ++ "。仅允许SELECT、SHOW、DESCRIBE、EXPLAIN查询,除非在环境变量中启用危险操作。")
    ("Disallowed SQL command: " ++ sql_keyword ++ ". Only SELECT, SHOW, DESCRIBE, EXPLAIN queries are allowed unless dangerous operations are enabled via environment variable.")

/-- `_check_statement_safety`: classify the statement by the keyword of its
first non-whitespace token; reject verbs outside `safe_commands`; deep-scan
only a SELECT statement. -/
def _check_statement_safety (h : Handler) (statement : Statement) : Bool × String :=
  match firstNonWs statement with
  | none => (false, "空的SQL语句")
  | some first_token =>
      let sql_keyword := _extract_sql_keyword first_token
      if !safe_commands.contains sql_keyword then
        (false, disallowed_command_msg h sql_keyword)
      else if sql_keyword == "SELECT" then _check_select_safety h statement
      else (true, "")

/-- The per-statement loop of `is_query_safe`: first failing statement
rejects the batch. -/
def checkStatements (h : Handler) : List Statement → Bool × String
  | [] => (true, "")
  | s :: ss =>
      match _check_statement_safety h s with
      | (false, m) => (false, m)
      | (true, _) => checkStatements h ss

/-- `is_query_safe`. The query text is consumed only through the external
`sqlparse.parse` collaborator, so the parse outcome is passed explicitly:
`.error e` models `sqlparse.parse` raising an exception with message `e`
(caught by the `except` branch), `.ok []` its empty result (the
`if not parsed` branch), `.ok stmts` a successful parse. -/
def is_query_safe (h : Handler) (parsed : Except String (List Statement)) : Bool × String :=
  if h.allow_dangerous_operations then (true, "")
  else
    match parsed with
    | .error e => (false, "SQL解析失败,查询被拒绝: " ++ e)
    | .ok [] => (false, "无法解析SQL查询")
    | .ok (s :: ss) => checkStatements h (s :: ss)

/-- A word character in the ASCII reading of the regex class `\w`,
used for the `\b` word boundary of the schema pattern. -/
def isWordChar (c : Char) : Bool := c.isAlpha || c.isDigit || c == '_'

/-- Case-insensitive literal match: consume `pat` at the head of `s`,
returning the rest on success. -/
def matchCI : List Char → List Char → Option (List Char)
  | [], s => some s
  | _ :: _, [] => none
  | p :: ps, c :: cs => if c.toUpper == p.toUpper then matchCI ps cs else none

/-- The keyword alternation of the schema pattern. -/
def contextKeywords : List (List Char) :=
  ["FROM".data, "JOIN".data, "INTO".data, "UPDATE".data]

/-- Try each keyword of the alternation at the head of `s`. -/
def matchAnyKw : List (List Char) → List Char → Option (List Char)
  | [], _ => none
  | k :: ks, s =>
      match matchCI k s with
      | some rest => some rest
      | none => matchAnyKw ks s

/-- Split off the longest first run satisfying `p`. -/
def spanP (p : Char → Bool) : List Char → List Char × List Char
  | [] => ([], [])
  | c :: cs =>
      if p c then
        let r := spanP p cs
        (c :: r.1, r.2)
      else ([], c :: cs)

/-- One match attempt of the source pattern
`\b(?:FROM|JOIN|INTO|UPDATE)\s+([^\s\.]+)\.` (case-insensitive) at the
current position: `prev` is the character before the position (none at the
start of the string). On success returns the captured group and the rest of
the input after the match. Greedy `\s+` and `[^\s.]+` need no backtracking
because the two classes are disjoint and the trailing literal `.` is
excluded from the capture class. -/
def tryMatchSchemaAt (prev : Option Char) (s : List Char) : Option (String × List Char) :=
  let boundary := match prev with
    | none => true
    | some c => !isWordChar c
  if boundary then
    match matchAnyKw contextKeywords s with
    | some rest =>
        let r1 := spanP Char.isWhitespace rest
        if r1.1.isEmpty then none
        else
          let r2 := spanP (fun c => !c.isWhitespace && c != '.') r1.2
          if r2.1.isEmpty then none
          else
            match r2.2 with
            | '.' :: rest4 => some (String.mk r2.1, rest4)
            | _ => none
    | none => none
  else none

/-- The left-to-right, non-overlapping scan of `re.findall`: try a match at
every position, and on success continue after the consumed text (whose last
character is the literal `.`). The fuel argument is the length of the
remaining input; every step consumes at least one character. -/
def scanSchemasAux : Nat → Option Char → List Char → List String
  | 0, _, _ => []
  | _, _, [] => []
  | fuel + 1, prev, c :: rest =>
      match tryMatchSchemaAt prev (c :: rest) with
      | some (cap, rest') => cap :: scanSchemasAux fuel (some '.') rest'
      | none => scanSchemasAux fuel (some c) rest

/-- `re.findall(r'\b(?:FROM|JOIN|INTO|UPDATE)\s+([^\s\.]+)\.', query, re.IGNORECASE)`
over the original (non-uppercased) query text. -/
def findallSchemas (query : String) : List String :=
  scanSchemasAux query.data.length none query.data

/-- The schema allow-list of `validate_database_context`. -/
def allowed_schema_list : List String := ["public", "pg_catalog", "information_schema"]

/-- The first captured identifier whose lowercasing is outside the
allow-list (the doubly-nested loop returns on the first such match). -/
def firstOffendingSchema (query : String) : Option String :=
  (findallSchemas query).find? (fun m => !allowed_schema_list.contains (pyLower m))

/-- The database-switch rejection message. -/
def switch_db_msg (h : Handler) : String :=
  "不允许切换数据库。只能在配置的数据库 '" ++ h.database ++ "' 中操作。"

/-- The unauthorized-schema rejection message. -/
def schema_msg (m : String) : String :=
  "不允许访问其他schema '" ++ m ++ "'。只能在配置的数据库的public schema中操作。"

/-- `validate_database_context`: over the stripped, uppercased text reject a
database switch if it contains the substring `\C ` or `USE `; then scan the
original text with the schema pattern and reject the first captured
identifier outside the allow-list. -/
def validate_database_context (h : Handler) (query : String) : Bool × String :=
  let query_upper := pyUpper (pyStrip query)
  if strContains query_upper "\\C " || strContains query_upper "USE " then
    (false, switch_db_msg h)
  else
    match firstOffendingSchema query with
    | some m => (false, schema_msg m)
    | none => (true, "")

/-- The "Query rejected" prefix used by `execute_query`. -/
def rejected_prefix_msg (h : Handler) : String :=
  _get_message h "查询被拒绝" "Query rejected"

/-- The pre-flight gate of `execute_query` (the part before any database
I/O): run `is_query_safe`, then `validate_database_context`; a failure of
either returns the rejection, otherwise the query proceeds (`true`). -/
def execute_query_checks (h : Handler) (query : String)
    (parsed : Except String (List Statement)) : Bool × String :=
  match is_query_safe h parsed with
  | (false, m) => (false, rejected_prefix_msg h ++ ": " ++ m)
  | (true, _) =>
      match validate_database_context h query with
      | (false, m) => (false, rejected_prefix_msg h ++ ": " ++ m)
      | (true, _) => (true, "")

mutual
/-- Pre-order depth-first listing of a token and its descendants
(parent before children). -/
def preorderTok : Token → List Token
  | .composite ch => Token.composite ch :: preorderList ch
  | t => [t]
/-- Pre-order listing of a forest, left to right. -/
def preorderList : List Token → List Token
  | [] => []
  | t :: ts => preorderTok t ++ preorderList ts
end

/-- The uppercased text of a DML keyword token when it lies in the mutating
set, else none. -/
def dangerousDmlVerb : Token → Option String
  | .dmlKeyword t => if dangerous_dml.contains (pyUpper t) then some (pyUpper t) else none
  | _ => none

/-- Specification-side reading of the nested scanner: the first token in
pre-order depth-first order that is a dangerous DML keyword. -/
def firstDangerousVerb (statement : Statement) : Option String :=
  (preorderList statement).findSome? dangerousDmlVerb

/-- One match attempt of the pattern exactly as the specification writes it,
`(FROM|JOIN|INTO|UPDATE)\s+([^\s.]+)\.` — without the `\b` word boundary
that the source pattern carries. Used to compare the spec's pattern with
the code's. -/
def tryMatchSchemaSpec (s : List Char) : Option (String × List Char) :=
  match matchAnyKw contextKeywords s with
  | some rest =>
      let r1 := spanP Char.isWhitespace rest
      if r1.1.isEmpty then none
      else
        let r2 := spanP (fun c => !c.isWhitespace && c != '.') r1.2
        if r2.1.isEmpty then none
        else
          match r2.2 with
          | '.' :: rest4 => some (String.mk r2.1, rest4)
          | _ => none
  | none => none

/-- Non-overlapping global scan with the spec's boundary-free pattern. -/
def scanSchemasSpecAux : Nat → List Char → List String
  | 0, _ => []
  | _, [] => []
  | fuel + 1, c :: rest =>
      match tryMatchSchemaSpec (c :: rest) with
      | some (cap, rest') => cap :: scanSchemasSpecAux fuel rest'
      | none => scanSchemasSpecAux fuel rest

/-- `re.findall` with the pattern as written in the specification
(no word boundary). -/
def findallSchemasSpec (query : String) : List String :=
  scanSchemasSpecAux query.data.length query.data

/-- An enforced-mode handler (dangerous operations disabled, English locale). -/
def hEnforced : Handler := ⟨false, "testdb", false⟩

/-- Token tree of `SELECT 1;` as the first statement of a batch. -/
def exSelectOne : Statement :=
  [Token.dmlKeyword "SELECT", Token.whitespace " ", Token.leaf "1", Token.leaf ";"]

/-- Token tree of ` DELETE FROM orders` as the second statement of a batch. -/
def exDeleteOrders : Statement :=
  [Token.whitespace " ", Token.dmlKeyword "DELETE", Token.whitespace " ",
   Token.plainKeyword "FROM", Token.whitespace " ", Token.leaf "orders"]

/-- The parsed two-statement batch `SELECT 1; DELETE FROM orders`. -/
def exBatch : List Statement := [exSelectOne, exDeleteOrders]

/-- Token tree of `SELECT * FROM (SELECT 1 FROM (DELETE FROM t RETURNING 1) x) y`:
a DELETE smuggled two levels of parenthesised subquery deep under a
top-level SELECT. -/
def exNestedDelete : Statement :=
  [Token.dmlKeyword "SELECT", Token.whitespace " ", Token.leaf "*", Token.whitespace " ",
   Token.plainKeyword "FROM", Token.whitespace " ",
   Token.composite [Token.leaf "(", Token.dmlKeyword "SELECT", Token.whitespace " ",
     Token.leaf "1", Token.whitespace " ", Token.plainKeyword "FROM", Token.whitespace " ",
     Token.composite [Token.leaf "(", Token.dmlKeyword "DELETE", Token.whitespace " ",
       Token.plainKeyword "FROM", Token.whitespace " ", Token.leaf "t", Token.whitespace " ",
       Token.plainKeyword "RETURNING", Token.whitespace " ", Token.leaf "1", Token.leaf ")"],
     Token.whitespace " ", Token.leaf "x", Token.leaf ")"],
   Token.whitespace " ", Token.leaf "y"]

/-- Token tree of `WITH x AS (DELETE FROM t) SELECT 1`: a statement whose
leading verb is the CTE keyword WITH and which embeds a DELETE. -/
def exWithDelete : Statement :=
  [Token.cteKeyword "WITH", Token.whitespace " ", Token.leaf "x", Token.whitespace " ",
   Token.plainKeyword "AS", Token.whitespace " ",
   Token.composite [Token.leaf "(", Token.dmlKeyword "DELETE", Token.whitespace " ",
     Token.plainKeyword "FROM", Token.whitespace " ", Token.leaf "t", Token.leaf ")"],
   Token.whitespace " ", Token.dmlKeyword "SELECT", Token.whitespace " ", Token.leaf "1"]

/-- Token tree of `SELECT @@VERSION UNION SELECT 1`: its text contains both
the dangerous construct `@@` and `UNION`. -/
def exUnionAtAt : Statement :=
  [Token.dmlKeyword "SELECT", Token.whitespace " ", Token.leaf "@@VERSION",
   Token.whitespace " ", Token.plainKeyword "UNION", Token.whitespace " ",
   Token.dmlKeyword "SELECT", Token.whitespace " ", Token.leaf "1"]

/-- Token tree of `SELECT a FROM t UNION SELECT a FROM t`: a union of a
table with itself. -/
def exUnionSame : Statement :=
  [Token.dmlKeyword "SELECT", Token.whitespace " ", Token.leaf "a", Token.whitespace " ",
   Token.plainKeyword "FROM", Token.whitespace " ", Token.leaf "t", Token.whitespace " ",
   Token.plainKeyword "UNION", Token.whitespace " ", Token.dmlKeyword "SELECT",
   Token.whitespace " ", Token.leaf "a", Token.whitespace " ",
   Token.plainKeyword "FROM", Token.whitespace " ", Token.leaf "t"]

/-! Helper lemmas. -/

theorem append_ne_empty (s t : String) (hs : s ≠ "") : s ++ t ≠ "" := by
  cases s with
  | mk a =>
    cases t with
    | mk b =>
      intro hcon
      apply hs
      have hab : a ++ b = ([] : List Char) := congrArg String.data hcon
      have ha : a = [] := (List.append_eq_nil.mp hab).1
      rw [ha]

theorem get_message_ne (h : Handler) (zh en : String) (hzh : zh ≠ "") (hen : en ≠ "") :
    _get_message h zh en ≠ "" := by
  unfold _get_message
  split <;> assumption

theorem nested_dml_msg_ne (h : Handler) (k : String) : nested_dml_msg h k ≠ "" :=
  get_message_ne h _ _
    (append_ne_empty _ _ (append_ne_empty _ _ (by decide)))
    (append_ne_empty _ _ (append_ne_empty _ _ (by decide)))

theorem construct_msg_ne (h : Handler) (d : String) : construct_msg h d ≠ "" :=
  get_message_ne h _ _
    (append_ne_empty _ _ (append_ne_empty _ _ (by decide)))
    (append_ne_empty _ _ (append_ne_empty _ _ (by decide)))

theorem union_msg_ne (h : Handler) : union_msg h ≠ "" :=
  get_message_ne h _ _ (by decide) (by decide)

theorem disallowed_command_msg_ne (h : Handler) (k : String) :
    disallowed_command_msg h k ≠ "" :=
  get_message_ne h _ _
    (append_ne_empty _ _ (append_ne_empty _ _ (by decide)))
    (append_ne_empty _ _ (append_ne_empty _ _ (by decide)))

theorem switch_db_msg_ne (h : Handler) : switch_db_msg h ≠ "" :=
  append_ne_empty _ _ (append_ne_empty _ _ (by decide))

theorem schema_msg_ne (m : String) : schema_msg m ≠ "" :=
  append_ne_empty _ _ (append_ne_empty _ _ (by decide))

mutual
theorem check_token_eq_preorder (h : Handler) : (t : Token) →
    check_token_recursively h t =
      (match (preorderTok t).findSome? dangerousDmlVerb with
       | some k => (false, nested_dml_msg h k)
       | none => (true, ""))
  | .dmlKeyword t => by
      by_cases hc : pyUpper t ∈ dangerous_dml <;>
        simp [preorderTok, check_token_recursively, dangerousDmlVerb, List.findSome?, hc]
  | .plainKeyword t => by
      simp [preorderTok, check_token_recursively, dangerousDmlVerb, List.findSome?]
  | .cteKeyword t => by
      simp [preorderTok, check_token_recursively, dangerousDmlVerb, List.findSome?]
  | .leaf t => by
      simp [preorderTok, check_token_recursively, dangerousDmlVerb, List.findSome?]
  | .whitespace t => by
      simp [preorderTok, check_token_recursively, dangerousDmlVerb, List.findSome?]
  | .composite ch => by
      have ih := checkTokens_eq_preorder h ch
      simp only [preorderTok, check_token_recursively, dangerousDmlVerb, List.findSome?]
      exact ih
theorem checkTokens_eq_preorder (h : Handler) : (ts : List Token) →
    checkTokens h ts =
      (match (preorderList ts).findSome? dangerousDmlVerb with
       | some k => (false, nested_dml_msg h k)
       | none => (true, ""))
  | [] => by simp [preorderList, checkTokens, List.findSome?]
  | t :: ts => by
      have iht := check_token_eq_preorder h t
      have ihts := checkTokens_eq_preorder h ts
      rw [checkTokens, iht]
      simp only [preorderList, List.findSome?_append]
      cases hft : (preorderTok t).findSome? dangerousDmlVerb with
      | some k => simp [Option.or]
      | none => simpa [Option.or] using ihts
end

/-- The nested-operation scanner equals the first dangerous DML keyword in
pre-order depth-first order over the statement's token forest. -/
theorem nested_scan_eq_firstDangerous (h : Handler) (statement : Statement) :
    _check_nested_dangerous_operations h statement =
      (match firstDangerousVerb statement with
       | some k => (false, nested_dml_msg h k)
       | none => (true, "")) :=
  checkTokens_eq_preorder h statement

theorem nested_scan_inv (h : Handler) (statement : Statement) :
    (_check_nested_dangerous_operations h statement).1 = false ↔
      (_check_nested_dangerous_operations h statement).2 ≠ "" := by
  rw [nested_scan_eq_firstDangerous]
  cases firstDangerousVerb statement with
  | none => simp
  | some k => simp [nested_dml_msg_ne h k]

theorem select_safety_inv (h : Handler) (statement : Statement) :
    (_check_select_safety h statement).1 = false ↔
      (_check_select_safety h statement).2 ≠ "" := by
  unfold _check_select_safety
  cases hfc : findConstruct (pyUpper (renderList statement)) dangerous_constructs with
  | some d => simp [hfc, construct_msg_ne h d]
  | none =>
      by_cases hu : strContains (pyUpper (renderList statement)) "UNION" <;>
        simp [hfc, hu, union_msg_ne h, nested_scan_inv h statement]

theorem statement_safety_inv (h : Handler) (statement : Statement) :
    (_check_statement_safety h statement).1 = false ↔
      (_check_statement_safety h statement).2 ≠ "" := by
  unfold _check_statement_safety
  cases hft : firstNonWs statement with
  | none => simp
  | some ft =>
      by_cases hs : _extract_sql_keyword ft ∈ safe_commands
      · by_cases hsel : _extract_sql_keyword ft = "SELECT"
        · simp [hft, hs, hsel, safe_commands, select_safety_inv h statement]
        · simp [hft, hs, hsel]
      · simp [hft, hs, disallowed_command_msg_ne h (_extract_sql_keyword ft)]

theorem checkStatements_inv (h : Handler) (stmts : List Statement) :
    (checkStatements h stmts).1 = false ↔ (checkStatements h stmts).2 ≠ "" := by
  induction stmts with
  | nil => simp [checkStatements]
  | cons s ss ih =>
      rw [checkStatements]
      cases hr : _check_statement_safety h s with
      | mk b m =>
          cases b
          · have := statement_safety_inv h s
            rw [hr] at this
            simpa using this.mp rfl
          · simpa using ih

theorem is_query_safe_inv (h : Handler) (parsed : Except String (List Statement)) :
    (is_query_safe h parsed).1 = false ↔ (is_query_safe h parsed).2 ≠ "" := by
  unfold is_query_safe
  by_cases ha : h.allow_dangerous_operations
  · simp [ha]
  · cases parsed with
    | error e => simp [ha, append_ne_empty "SQL解析失败,查询被拒绝: " e (by decide)]
    | ok stmts =>
        cases stmts with
        | nil => simp [ha]
        | cons s ss => simpa [ha] using checkStatements_inv h (s :: ss)

theorem validate_context_inv (h : Handler) (q : String) :
    (validate_database_context h q).1 = false ↔
      (validate_database_context h q).2 ≠ "" := by
  unfold validate_database_context
  by_cases hsw : strContains (pyUpper (pyStrip q)) "\\C " || strContains (pyUpper (pyStrip q)) "USE "
  · simp [hsw, switch_db_msg_ne h]
  · cases hfo : firstOffendingSchema q with
    | some m => simp [hsw, hfo, schema_msg_ne m]
    | none => simp [hsw, hfo]

/-- A statement anywhere in the batch that fails the per-statement check
makes the whole batch fail. -/
theorem checkStatements_mem_false (h : Handler) (stmts : List Statement)
    (s : Statement) (hmem : s ∈ stmts)
    (hfail : (_check_statement_safety h s).1 = false) :
    (checkStatements h stmts).1 = false := by
  induction stmts with
  | nil => cases hmem
  | cons a as ih =>
      rw [checkStatements]
      cases hr : _check_statement_safety h a with
      | mk b m =>
          cases b
          · simp
          · rcases List.mem_cons.mp hmem with heq | hmem'
            · rw [heq, hr] at hfail
              simp at hfail
            · simpa using ih hmem'

/-! Claim theorems. -/

/-- C1: with `allow_dangerous_operations` set (the spec's Permissive mode),
`is_query_safe` returns allowed = true with an empty reason for every
query, independently of the parse outcome — so neither parsing nor any
verb, nested, or pattern check influences the decision. -/
theorem C1_permissive_allows_immediately (db : String) (zh : Bool)
    (parsed : Except String (List Statement)) :
    is_query_safe ⟨true, db, zh⟩ parsed = (true, "") := rfl

/-- C2 counterexample: the WITH-verb statement `WITH x AS (DELETE FROM t)
SELECT 1` is accepted by `_check_statement_safety` although the deep
scanners would reject it, so a statement whose verb is WITH does not
proceed to deep scanning. -/
theorem C2_with_not_deep_scanned_counterexample :
    (firstNonWs exWithDelete).map _extract_sql_keyword = some "WITH" ∧
    _check_statement_safety hEnforced exWithDelete = (true, "") ∧
    _check_select_safety hEnforced exWithDelete =
      (false, nested_dml_msg hEnforced "DELETE") :=
  ⟨rfl, by decide, by decide⟩

/-- C2 (amended): in Enforced mode a statement proceeds to deep scanning
(identical result to `_check_select_safety`) iff its classified verb is
SELECT; SHOW, DESCRIBE, DESC, EXPLAIN and WITH statements are accepted
outright, without deep scanning. -/
theorem C2_deep_scan_only_select (h : Handler) (statement : Statement) (ft : Token)
    (hft : firstNonWs statement = some ft) :
    (_extract_sql_keyword ft = "SELECT" →
       _check_statement_safety h statement = _check_select_safety h statement) ∧
    (_extract_sql_keyword ft ∈ (["SHOW", "DESCRIBE", "DESC", "EXPLAIN", "WITH"] : List String) →
       _check_statement_safety h statement = (true, "")) := by
  constructor
  · intro hsel
    simp [_check_statement_safety, hft, hsel, safe_commands]
  · intro hmem
    simp only [List.mem_cons, List.not_mem_nil, or_false] at hmem
    rcases hmem with h1 | h1 | h1 | h1 | h1 <;>
      simp [_check_statement_safety, hft, h1, safe_commands]

theorem C2_deep_scan_only_select_witness :
    _check_statement_safety hEnforced exWithDelete = (true, "") ∧
    _check_statement_safety hEnforced exUnionSame =
      _check_select_safety hEnforced exUnionSame :=
  ⟨(C2_deep_scan_only_select hEnforced exWithDelete (Token.cteKeyword "WITH") rfl).2
      (by decide),
   (C2_deep_scan_only_select hEnforced exUnionSame (Token.dmlKeyword "SELECT") rfl).1
      (by decide)⟩

/-- C3: the nested scanner is equivalent to taking the first token in
pre-order depth-first order tagged as a DML keyword whose uppercased text
is in the mutating set — it rejects with exactly that verb's
embedded-mutation message and accepts iff no such token exists (so the
traversal short-circuits at the pre-order-first violation); in particular
the statement `SELECT * FROM (SELECT 1 FROM (DELETE FROM t RETURNING 1) x) y`
is rejected with the DELETE message. -/
theorem C3_nested_preorder_short_circuit :
    (∀ (h : Handler) (statement : Statement),
       _check_nested_dangerous_operations h statement =
         (match firstDangerousVerb statement with
          | some k => (false, nested_dml_msg h k)
          | none => (true, ""))) ∧
    firstDangerousVerb exNestedDelete = some "DELETE" ∧
    _check_statement_safety hEnforced exNestedDelete =
      (false, nested_dml_msg hEnforced "DELETE") :=
  ⟨nested_scan_eq_firstDangerous, by decide, by decide⟩

/-- C4: in Enforced mode a statement whose classified verb is outside the
allow-list is rejected with the disallowed-command message for that verb,
and a batch containing any failing statement is rejected as a whole. -/
theorem C4_disallowed_verb_rejects (h : Handler) (statement : Statement) (ft : Token)
    (hft : firstNonWs statement = some ft)
    (hbad : _extract_sql_keyword ft ∉ safe_commands) :
    _check_statement_safety h statement =
      (false, disallowed_command_msg h (_extract_sql_keyword ft)) ∧
    (∀ (stmts : List Statement), statement ∈ stmts →
       h.allow_dangerous_operations = false →
       (is_query_safe h (.ok stmts)).1 = false) := by
  have hrej : _check_statement_safety h statement =
      (false, disallowed_command_msg h (_extract_sql_keyword ft)) := by
    simp [_check_statement_safety, hft, hbad]
  refine ⟨hrej, ?_⟩
  intro stmts hmem hallow
  have hfail : (_check_statement_safety h statement).1 = false := by rw [hrej]
  have hcs := checkStatements_mem_false h stmts statement hmem hfail
  cases stmts with
  | nil => cases hmem
  | cons s ss => simpa [is_query_safe, hallow] using hcs

theorem C4_disallowed_verb_rejects_witness :
    is_query_safe hEnforced (.ok exBatch) =
      (false, disallowed_command_msg hEnforced "DELETE") ∧
    (is_query_safe hEnforced (.ok exBatch)).1 = false :=
  ⟨by decide,
   (C4_disallowed_verb_rejects hEnforced exDeleteOrders (Token.dmlKeyword "DELETE")
      rfl (by decide)).2 exBatch
      (List.mem_cons_of_mem _ (List.mem_cons_self _ _)) rfl⟩

/-- C5 counterexample: the text of `SELECT @@VERSION UNION SELECT 1`
contains UNION, yet in Enforced mode the statement is rejected with the
dangerous-construct message for `@@` (checked first), not the UNION
message. -/
theorem C5_union_counterexample :
    strContains (pyUpper (renderList exUnionAtAt)) "UNION" = true ∧
    _check_statement_safety hEnforced exUnionAtAt =
      (false, construct_msg hEnforced "系统变量访问") ∧
    construct_msg hEnforced "系统变量访问" ≠ union_msg hEnforced :=
  ⟨by decide, by decide, by decide⟩

/-- C5 (amended): in Enforced mode every SELECT-classified statement whose
uppercased rendered text contains UNION is rejected; the reason is the
UNION message whenever no dangerous-construct substring occurs in the text
(the construct table is checked before the UNION check). -/
theorem C5_union_rejected (h : Handler) (statement : Statement) (ft : Token)
    (hft : firstNonWs statement = some ft)
    (hsel : _extract_sql_keyword ft = "SELECT")
    (hu : strContains (pyUpper (renderList statement)) "UNION" = true) :
    (_check_statement_safety h statement).1 = false ∧
    (findConstruct (pyUpper (renderList statement)) dangerous_constructs = none →
       _check_statement_safety h statement = (false, union_msg h)) := by
  have hdisp : _check_statement_safety h statement = _check_select_safety h statement := by
    simp [_check_statement_safety, hft, hsel, safe_commands]
  cases hfc : findConstruct (pyUpper (renderList statement)) dangerous_constructs with
  | some d =>
      have hone : _check_select_safety h statement = (false, construct_msg h d) := by
        simp [_check_select_safety, hfc]
      rw [hdisp, hone]
      refine ⟨rfl, fun hn => ?_⟩
      simp [hfc] at hn
  | none =>
      have hone : _check_select_safety h statement = (false, union_msg h) := by
        simp [_check_select_safety, hfc, hu]
      rw [hdisp, hone]
      exact ⟨rfl, fun _ => rfl⟩

theorem C5_union_rejected_witness :
    _check_statement_safety hEnforced exUnionSame = (false, union_msg hEnforced) :=
  (C5_union_rejected hEnforced exUnionSame (Token.dmlKeyword "SELECT") rfl
      (by decide) (by decide)).2 (by decide)

/-- C6 counterexample: the source pattern carries a leading word boundary
`\b` that the claim's pattern lacks; on `SELECT 1 FAKEFROM secret.users`
the claim's pattern captures the identifier `secret`, which is outside the
allow-list, yet `validate_database_context` allows the query. -/
theorem C6_boundary_counterexample :
    findallSchemasSpec "SELECT 1 FAKEFROM secret.users" = ["secret"] ∧
    allowed_schema_list.contains (pyLower "secret") = false ∧
    validate_database_context hEnforced "SELECT 1 FAKEFROM secret.users" = (true, "") :=
  ⟨by decide, by decide, by decide⟩

/-- C6 (amended): `validate_database_context` scans the original query text
globally with the case-insensitive source pattern
`\b(?:FROM|JOIN|INTO|UPDATE)\s+([^\s\.]+)\.` (note the word boundary);
absent a database-switch substring it allows the query iff every captured
identifier lowercases into the allow-list, and otherwise rejects naming
the first offending capture. -/
theorem C6_schema_guard (h : Handler) (q : String) :
    ((validate_database_context h q).1 = true ↔
       (strContains (pyUpper (pyStrip q)) "\\C " = false ∧
        strContains (pyUpper (pyStrip q)) "USE " = false ∧
        ∀ m ∈ findallSchemas q, allowed_schema_list.contains (pyLower m) = true)) ∧
    (∀ m, strContains (pyUpper (pyStrip q)) "\\C " = false →
       strContains (pyUpper (pyStrip q)) "USE " = false →
       firstOffendingSchema q = some m →
       validate_database_context h q = (false, schema_msg m)) := by
  constructor
  · cases hcv : strContains (pyUpper (pyStrip q)) "\\C " with
    | true =>
        have hval : validate_database_context h q = (false, switch_db_msg h) := by
          simp only [validate_database_context]
          rw [hcv]
          simp
        rw [hval]
        simp [hcv]
    | false =>
        cases huv : strContains (pyUpper (pyStrip q)) "USE " with
        | true =>
            have hval : validate_database_context h q = (false, switch_db_msg h) := by
              simp only [validate_database_context]
              rw [hcv, huv]
              simp
            rw [hval]
            simp [huv]
        | false =>
            have hval : validate_database_context h q =
                (match (findallSchemas q).find?
                    (fun m => !allowed_schema_list.contains (pyLower m)) with
                 | some m => (false, schema_msg m)
                 | none => (true, "")) := by
              simp only [validate_database_context, firstOffendingSchema]
              rw [hcv, huv]
              simp
            rw [hval]
            simp only [hcv, huv, eq_self_iff_true, true_and]
            cases hfo : (findallSchemas q).find?
                (fun m => !allowed_schema_list.contains (pyLower m)) with
            | some m =>
                have hmem := List.mem_of_find?_eq_some hfo
                have hp := List.find?_some hfo
                simp at hp
                simp only [hfo]
                constructor
                · intro habs
                  exact Bool.noConfusion habs
                · intro hall
                  exact absurd (hall m hmem) (by simpa using hp)
            | none =>
                have hall := List.find?_eq_none.mp hfo
                simp only [hfo]
                constructor
                · intro _ m hm
                  simpa using hall m hm
                · intro _
                  trivial
  · intro m hcf huf hfo
    unfold validate_database_context
    simp [hcf, huf, hfo]

theorem C6_schema_guard_witness :
    validate_database_context hEnforced "SELECT * FROM public.users" = (true, "") ∧
    validate_database_context hEnforced "SELECT * FROM secret.users" =
      (false, schema_msg "secret") := by
  constructor
  · have hiff := (C6_schema_guard hEnforced "SELECT * FROM public.users").1
    have h1 : (validate_database_context hEnforced "SELECT * FROM public.users").1 = true :=
      hiff.mpr (by decide)
    have h2 : (validate_database_context hEnforced "SELECT * FROM public.users").2 = "" := by
      by_contra hne
      have hf := (validate_context_inv hEnforced "SELECT * FROM public.users").mpr hne
      rw [h1] at hf
      exact Bool.noConfusion hf
    exact Prod.ext_iff.mpr ⟨h1, h2⟩
  · exact (C6_schema_guard hEnforced "SELECT * FROM secret.users").2 "secret"
      (by decide) (by decide) (by decide)

/-- C7: `validate_database_context` depends only on the configured database
name — never on `allow_dangerous_operations` — and the `execute_query`
gate lets a query proceed only when the schema guard allows it; under the
Permissive flag the gate's verdict is exactly the guard's. -/
theorem C7_schema_guard_mode_independent :
    (∀ (h h' : Handler) (q : String), h.database = h'.database →
       validate_database_context h q = validate_database_context h' q) ∧
    (∀ (h : Handler) (q : String) (parsed : Except String (List Statement)),
       (execute_query_checks h q parsed).1 = true →
       (validate_database_context h q).1 = true) ∧
    (∀ (db : String) (zh : Bool) (q : String) (parsed : Except String (List Statement)),
       (execute_query_checks ⟨true, db, zh⟩ q parsed).1 =
         (validate_database_context ⟨true, db, zh⟩ q).1) := by
  refine ⟨?_, ?_, ?_⟩
  · intro h h' q hdb
    unfold validate_database_context switch_db_msg
    rw [hdb]
  · intro h q parsed htrue
    cases hq : is_query_safe h parsed with
    | mk b m =>
        cases b
        · rw [execute_query_checks, hq] at htrue
          simp at htrue
        · cases hv : validate_database_context h q with
          | mk b2 m2 =>
              cases b2
              · rw [execute_query_checks, hq, hv] at htrue
                simp at htrue
              · simp [hv]
  · intro db zh q parsed
    have hq : is_query_safe ⟨true, db, zh⟩ parsed = (true, "") := rfl
    rw [execute_query_checks, hq]
    cases hv : validate_database_context ⟨true, db, zh⟩ q with
    | mk b2 m2 => cases b2 <;> simp

theorem C7_schema_guard_mode_independent_witness :
    validate_database_context ⟨true, "testdb", true⟩ "SELECT 1" =
      validate_database_context hEnforced "SELECT 1" ∧
    (validate_database_context hEnforced "SELECT 1").1 = true :=
  ⟨C7_schema_guard_mode_independent.1 ⟨true, "testdb", true⟩ hEnforced "SELECT 1" rfl,
   C7_schema_guard_mode_independent.2.1 hEnforced "SELECT 1" (.ok [exSelectOne])
      (by decide)⟩

/-- C8: with dangerous operations disabled, `is_query_safe` fails closed —
a parser exception and an empty parse result both yield a rejection,
returned as a value (the source's except-branch converts the exception
into this returned pair; the embedding is a total function). -/
theorem C8_fail_closed (db : String) (zh : Bool) (e : String) :
    is_query_safe ⟨false, db, zh⟩ (.error e) =
      (false, "SQL解析失败,查询被拒绝: " ++ e) ∧
    is_query_safe ⟨false, db, zh⟩ (.ok []) = (false, "无法解析SQL查询") ∧
    (is_query_safe ⟨false, db, zh⟩ (.error e)).1 = false ∧
    (is_query_safe ⟨false, db, zh⟩ (.ok [])).1 = false :=
  ⟨rfl, rfl, rfl, rfl⟩

/-- C9: for every handler, parse outcome and query, the reason string of
the returned decision is non-empty exactly when the decision is a
rejection, for both `is_query_safe` and `validate_database_context`. -/
theorem C9_reason_iff_rejected (h : Handler)
    (parsed : Except String (List Statement)) (q : String) :
    ((is_query_safe h parsed).1 = false ↔ (is_query_safe h parsed).2 ≠ "") ∧
    ((validate_database_context h q).1 = false ↔
       (validate_database_context h q).2 ≠ "") :=
  ⟨is_query_safe_inv h parsed, validate_context_inv h q⟩

theorem C9_reason_iff_rejected_witness :
    ((is_query_safe hEnforced (.ok exBatch)).1 = false ↔
       (is_query_safe hEnforced (.ok exBatch)).2 ≠ "") ∧
    ((validate_database_context hEnforced "SELECT 1").1 = false ↔
       (validate_database_context hEnforced "SELECT 1").2 ≠ "") :=
  C9_reason_iff_rejected hEnforced (.ok exBatch) "SELECT 1"

/-- C10: a query whose stripped, uppercased text contains the substring
`USE ` or `\C ` is rejected as a database switch; by substring containment
this also rejects queries with no USE statement at all, such as
`SELECT price FROM house WHERE id = 1`, whose `HOUSE ` contains `USE `. -/
theorem C10_use_substring_rejected (h : Handler) (q : String)
    (htrig : strContains (pyUpper (pyStrip q)) "USE " = true ∨
             strContains (pyUpper (pyStrip q)) "\\C " = true) :
    validate_database_context h q = (false, switch_db_msg h) ∧
    (∀ (h' : Handler),
       validate_database_context h' "SELECT price FROM house WHERE id = 1" =
         (false, switch_db_msg h')) := by
  constructor
  · unfold validate_database_context
    rcases htrig with ht | ht <;> simp [ht]
  · intro h'
    have ht : (strContains (pyUpper (pyStrip "SELECT price FROM house WHERE id = 1")) "\\C " ||
        strContains (pyUpper (pyStrip "SELECT price FROM house WHERE id = 1")) "USE ") = true := by
      decide
    unfold validate_database_context
    simp [ht]

theorem C10_use_substring_rejected_witness :
    validate_database_context hEnforced "SELECT price FROM house WHERE id = 1" =
      (false, switch_db_msg hEnforced) :=
  (C10_use_substring_rejected hEnforced "SELECT price FROM house WHERE id = 1"
      (Or.inl (by decide))).1

end PgMcp
